import Mathlib

/-!
Verification of the commit-message relay service (`app.py`).

The service is a single-endpoint HTTP relay: it parses a raw-text request
body into a code diff and a user instruction (separated by a fixed sentinel
delimiter), fills a fixed prompt template, posts the prompt to an inference
backend, aggregates the backend's streamed newline-delimited JSON body into
one string, retries once on empty output, and returns the result.

The embedding below mirrors `app.py` function by function:
  * `Json`, `StreamLine` model one line of the backend stream as the outcome
    of `json.loads` (a decoded JSON value, a decode failure, or a line that
    strips to empty and is skipped before decoding);
  * `aggregate` is the `async for` loop of `get_response` (lines 101-115);
  * `get_response` adds the status-code check and the catch-all
    `except Exception` that converts every failure to a 500;
  * `generate_prompt` is `prompt_template.format(...).strip()`, with
    `str.format` modelled by an explicit template scanner (`parseTemplateAux`);
  * `generate_text` is the request handler: delimiter split, prompt build,
    backend call, one retry on empty trimmed output.  It also returns the
    list of prompts sent to the backend, so call count and call arguments
    are observable in theorems.
-/

/-- A JSON value, as produced by `json.loads` on one stream line.
Numbers are modelled as integers (no claim depends on float behaviour);
objects are field lists where, as in a Python dict built by `json.loads`,
a later duplicate key overwrites an earlier one (`getKey?` returns the
last binding). -/
inductive Json where
  | null : Json
  | bool : Bool → Json
  | num : Int → Json
  | str : String → Json
  | arr : List Json → Json
  | obj : List (String × Json) → Json

/-- Python exceptions that can escape one iteration of the aggregation loop
or the surrounding code of `get_response`. `json.JSONDecodeError` never
appears here because the loop catches it locally. -/
inductive PyExc where
  | typeError : PyExc
  | keyError : PyExc
  | valueError : PyExc
  | httpStat : Nat → PyExc
deriving DecidableEq

/-- `fastapi.HTTPException`: a status code and a detail string. -/
structure HTTPException where
  status_code : Nat
  detail : String
deriving DecidableEq

/-- One line of the backend's streamed body, after `line.strip()` and
`json.loads`: `blank` strips to the empty string (skipped before decoding),
`malformed` is non-empty but fails to decode as JSON
(`json.JSONDecodeError`), `json v` decodes to the value `v`. -/
inductive StreamLine where
  | blank : StreamLine
  | malformed : StreamLine
  | json : Json → StreamLine

/-- Dict lookup for an object built by `json.loads`: the LAST binding of a
duplicated key wins, as in a Python dict literal built left to right. -/
def getKey? : List (String × Json) → String → Option Json
  | [], _ => none
  | (k, v) :: rest, key =>
    match getKey? rest key with
    | some v' => some v'
    | none => if k = key then some v else none

/-- Python truthiness of a JSON value (`if parsed_response.get("done", False):`). -/
def jsonTruthy : Json → Bool
  | .null => false
  | .bool b => b
  | .num n => n != 0
  | .str s => s != ""
  | .arr xs => !xs.isEmpty
  | .obj fs => !fs.isEmpty

/-- Python `==` between a string and a JSON value: true only for an equal
string (used by `in` on a JSON array). -/
def pyEqStr (s : String) : Json → Bool
  | .str t => s == t
  | _ => false

/-- Substring test (Python `in` on a string). -/
def containsSub (needle : List Char) : List Char → Bool
  | [] => needle.isEmpty
  | c :: cs => needle.isPrefixOf (c :: cs) || containsSub needle cs

/-- One loop iteration of `get_response` on a successfully decoded value `v`
(lines 106-111 of `app.py`), with accumulator `acc`:
  * `"response" in parsed_response` — key test for an object, substring test
    for a string, membership for an array, `TypeError` otherwise;
  * when the test is true: `parsed_response["response"]` — a `TypeError`
    unless `v` is an object (string/list indices must be integers);
  * `combined_response += response_text` — a `TypeError` unless the field
    value is a string;
  * only then `parsed_response.get("done", False)` decides whether to break.
Returns `(break?, new accumulator)` or the escaping exception. -/
def stepLine (v : Json) (acc : String) : Except PyExc (Bool × String) :=
  match v with
  | .obj fs =>
    match getKey? fs "response" with
    | none => .ok (false, acc)
    | some (.str s) =>
      .ok (jsonTruthy ((getKey? fs "done").getD (.bool false)), acc ++ s)
    | some _ => .error .typeError
  | .str s => if containsSub ("response".data) s.data then .error .typeError else .ok (false, acc)
  | .arr xs => if xs.any (pyEqStr "response") then .error .typeError else .ok (false, acc)
  | _ => .error .typeError

/-- The aggregation loop of `get_response` (lines 101-115): blank lines and
JSON-decode failures are skipped (`continue`), a decoded value is processed
by `stepLine`; a `true` break flag stops consumption immediately, an
exception other than the decode error escapes the loop. -/
def aggregate : List StreamLine → String → Except PyExc String
  | [], acc => .ok acc
  | .blank :: rest, acc => aggregate rest acc
  | .malformed :: rest, acc => aggregate rest acc
  | .json v :: rest, acc =>
    match stepLine v acc with
    | .error e => .error e
    | .ok (true, acc') => .ok acc'
    | .ok (false, acc') => aggregate rest acc'

/-- The backend's HTTP response: status code and streamed body lines. -/
structure BackendResponse where
  status_code : Nat
  lines : List StreamLine

/-- `get_response` (lines 85-121): a non-200 status raises
`HTTPException(status_code, ...)` INSIDE the `try`, and the catch-all
`except Exception` (line 119) catches it — like every other exception —
and re-raises `HTTPException(500, "Error fetching response")`.  So the
function either returns the aggregated string or raises that fixed 500. -/
def get_response (resp : BackendResponse) : Except HTTPException String :=
  let inner : Except PyExc String :=
    if resp.status_code ≠ 200 then .error (.httpStat resp.status_code)
    else aggregate resp.lines ""
  match inner with
  | .ok s => .ok s
  | .error _ => .error ⟨500, "Error fetching response"⟩
/-- The prompt template of `app.py` (lines 38-83), verbatim, as the
literal between the triple quotes: a leading newline, each line of the
template (trailing spaces preserved), and a trailing newline plus the
closing-quote indentation. -/
def prompt_template : String := String.intercalate "\n" [
  "",
  "    You are tasked with generating a professional and concise commit message for a code change. ",
  "    The commit message should follow best practices, such as being descriptive, summarizing the ",
  "    purpose of the change, and adhering to the conventional commit format (if applicable).",
  "",
  "    Below, you will find:",
  "    1. **Code Diff**: A representation of the changes made in the code.",
  "    2. **Optional User Instruction**: Additional context or specific guidelines provided by the user. ",
  "       This field may be blank.",
  "",
  "    If the **Optional User Instruction** is blank, rely solely on the **Code Diff** to infer the intent ",
  "    of the change and generate the commit message. If the instruction is provided, use it to enhance ",
  "    or guide the commit message.",
  "",
  "    **Input Format:**",
  "",
  "    1. **Code Diff**:  ",
  "    ```",
  "    {code_diff}",
  "    ```",
  "",
  "    2. **Optional User Instruction**:  ",
  "    ```",
  "    {user_instruction}",
  "    ```",
  "",
  "    **Output Format:**",
  "",
  "    Generate a commit message in the following format:",
  "",
  "    ```",
  "    <type>: <summary>",
  "",
  "    <body>",
  "",
  "    <footer>",
  "    ```",
  "",
  "    - `<type>`: A keyword indicating the type of change (e.g., `feat`, `fix`, `docs`, `refactor`, `test`).",
  "    - `<summary>`: A brief description of the change, written in the imperative mood.",
  "    - `<body>`: A detailed explanation of the change, if necessary.",
  "    - `<footer>`: References to issues, breaking changes, or other relevant notes.",
  "",
  "    If no specific format is required, ensure the commit message is still clear, concise, and professional.",
  "    Do not return anything other than the commit message, not even any identifier, or even the thought process.",
  "    "]

/-- A parsed token of a `str.format` template: a literal chunk or a named
replacement field. -/
inductive Tok where
  | lit : List Char → Tok
  | field : List Char → Tok

/-- Scanner state of the `str.format` template parser: inside literal text,
or inside a replacement field with the name characters read so far
(reversed). -/
inductive PMode where
  | text : PMode
  | field : List Char → PMode

/-- Python `str.format` template scanning, for templates whose replacement
fields are simple names (the only kind `prompt_template` uses): `\x7b\x7b`
and `\x7d\x7d` are escaped braces, a lone closing brace is a `ValueError`,
an opening brace starts a field name read up to the matching closing brace,
and an unterminated field is a `ValueError`.  Tokens are accumulated in
reverse (tail recursion, so the kernel evaluates long templates). -/
def parseTemplateAux : PMode → List Tok → List Char → Except PyExc (List Tok)
  | .text, acc, [] => .ok acc.reverse
  | .text, acc, '\x7b' :: '\x7b' :: rest => parseTemplateAux .text (.lit ['\x7b'] :: acc) rest
  | .text, acc, '\x7d' :: '\x7d' :: rest => parseTemplateAux .text (.lit ['\x7d'] :: acc) rest
  | .text, _, '\x7d' :: _ => .error .valueError
  | .text, acc, '\x7b' :: rest => parseTemplateAux (.field []) acc rest
  | .text, acc, c :: rest => parseTemplateAux .text (.lit [c] :: acc) rest
  | .field _, _, [] => .error .valueError
  | .field nm, acc, '\x7d' :: rest => parseTemplateAux .text (.field nm.reverse :: acc) rest
  | .field nm, acc, c :: rest => parseTemplateAux (.field (c :: nm)) acc rest

/-- Substitution phase of `str.format` with keyword arguments
`code_diff` and `user_instruction`: a field with any other name is a
`KeyError`.  The substituted values are inserted verbatim — they are never
re-scanned, so braces inside them are inert.  The output characters are
accumulated in reverse (tail recursion). -/
def renderToks (code_diff user_instruction : String) : List Char → List Tok → Except PyExc (List Char)
  | acc, [] => .ok acc.reverse
  | acc, .lit cs :: ts => renderToks code_diff user_instruction (cs.reverseAux acc) ts
  | acc, .field n :: ts =>
    if n = "code_diff".data then
      renderToks code_diff user_instruction (code_diff.data.reverseAux acc) ts
    else if n = "user_instruction".data then
      renderToks code_diff user_instruction (user_instruction.data.reverseAux acc) ts
    else .error .keyError

/-- `template.format(code_diff=..., user_instruction=...)`. -/
def pyFormat (template code_diff user_instruction : String) : Except PyExc String :=
  match parseTemplateAux .text [] template.data with
  | .error e => .error e
  | .ok toks =>
    match renderToks code_diff user_instruction [] toks with
    | .error e => .error e
    | .ok cs => .ok ⟨cs⟩

/-- Python `str.isspace` on the ASCII whitespace characters that
`str.strip()` removes (the inputs of interest contain no exotic Unicode
whitespace). -/
def isPySpace (c : Char) : Bool :=
  c == ' ' || c == '\t' || c == '\n' || c == '\r' || c == '\x0b' || c == '\x0c'

/-- `str.strip()` on the character list: drop whitespace from both ends. -/
def stripChars (cs : List Char) : List Char :=
  ((cs.dropWhile isPySpace).reverse.dropWhile isPySpace).reverse

/-- Python `str.strip()`. -/
def pyStrip (s : String) : String := ⟨stripChars s.data⟩

/-- `generate_prompt` (lines 123-126): fill the template with the two
inputs, then strip the result.  In Python a malformed template would raise
(`KeyError`/`ValueError`), caught only by the handler's generic
`except Exception`; the `Except` carries that possibility. -/
def generate_prompt (code_diff user_instruction : String) : Except PyExc String :=
  (pyFormat prompt_template code_diff user_instruction).map pyStrip

/-- The sentinel delimiter separating diff and instructions (line 36). -/
def DELIMITER : String := "-----END_OF_DIFF-----"

/-- `s.split(d, 1)` restricted to what the handler needs: `some (pre, post)`
split at the FIRST occurrence of `d` when `d` occurs in `s` (Python returns
a 2-element list), `none` when it does not (Python returns `[s]`, and the
handler's length check fails). -/
def splitFirstAux (d : List Char) : List Char → Option (List Char × List Char)
  | [] => none
  | c :: cs =>
    if d.isPrefixOf (c :: cs) then some ([], (c :: cs).drop d.length)
    else
      match splitFirstAux d cs with
      | some (pre, post) => some (c :: pre, post)
      | none => none

/-- String-level wrapper of `splitFirstAux`. -/
def pySplit1 (d s : String) : Option (String × String) :=
  (splitFirstAux d.data s.data).map (fun p => (⟨p.1⟩, ⟨p.2⟩))

/-- Number of non-overlapping occurrences of `d` (Python `s.count(d)` for
non-empty `d`): after a match, `skip` more characters belong to the matched
occurrence and are not rescanned. -/
def countOccAux (d : List Char) : Nat → List Char → Nat
  | _ + 1, [] => 0
  | k + 1, _ :: cs => countOccAux d k cs
  | 0, [] => 0
  | 0, c :: cs =>
    if d.isPrefixOf (c :: cs) then 1 + countOccAux d (d.length - 1) cs
    else countOccAux d 0 cs

/-- `s.count(d)` for non-empty `d`. -/
def countOcc (d s : String) : Nat := countOccAux d.data 0 s.data

/-- `generate_text` (lines 128-161), the `POST /generate` handler.  The
backend is modelled by the responses `b1` (first call) and `b2` (used only
if a second call happens); the second component of the result is the list
of prompts sent to the backend, in call order.  Control flow mirrors the
source:
  * body split on the delimiter with `maxsplit=1`; not exactly 2 parts →
    `HTTPException(400, ...)` before any backend call;
  * both parts are stripped, the prompt built (a template error would fall
    into the generic `except Exception` → 500 `"Internal error: ..."`);
  * first backend call; an `HTTPException` from it is re-raised unchanged
    (line 157-158) with no retry;
  * the first result is stripped; if empty, exactly one more backend call
    whose result — ok or error — is returned AS IS (the source does not
    strip the retry result). -/
def generate_text (body : String) (b1 b2 : BackendResponse) :
    Except HTTPException String × List String :=
  match pySplit1 DELIMITER body with
  | none =>
    (.error ⟨400, "Invalid input format. Expected \x27diff\x27 and \x27user_instruction\x27 separated by a delimiter."⟩, [])
  | some (code_diff, user_instruction) =>
    match generate_prompt (pyStrip code_diff) (pyStrip user_instruction) with
    | .error _ => (.error ⟨500, "Internal error: format"⟩, [])
    | .ok prompt =>
      match get_response b1 with
      | .error e => (.error e, [prompt])
      | .ok r =>
        if (pyStrip r).length = 0 then (get_response b2, [prompt, prompt])
        else (.ok (pyStrip r), [prompt])

/-! ### Helper definitions and lemmas shared by the claim theorems -/

/-- A `response`-only chunk, the common shape of a backend fragment. -/
def respChunk (s : String) : StreamLine := .json (.obj [("response", .str s)])

/-- A final chunk: `response` fragment together with `done = true`. -/
def respDone (s : String) : StreamLine := .json (.obj [("response", .str s), ("done", .bool true)])

/-- Concatenation of a fragment list, in order. -/
def joinAll (l : List String) : String := l.foldr (· ++ ·) ""

/-- A template token that `renderToks` can always substitute. -/
def goodTok : Tok → Bool
  | .lit _ => true
  | .field n => n = "code_diff".data || n = "user_instruction".data

/-- The concrete template scans successfully and every field is one of the
two keyword arguments the code supplies. -/
def templateGood : Bool :=
  match parseTemplateAux .text [] prompt_template.data with
  | .ok toks => toks.all goodTok
  | .error _ => false

set_option maxRecDepth 16000 in
theorem templateGood_true : templateGood = true := by rfl

theorem renderToks_ok (ts : List Tok) (hall : ts.all goodTok = true)
    (a b : String) (acc : List Char) : ∃ cs, renderToks a b acc ts = .ok cs := by
  induction ts generalizing acc with
  | nil => exact ⟨acc.reverse, rfl⟩
  | cons t ts ih =>
    simp only [List.all_cons, Bool.and_eq_true] at hall
    obtain ⟨ht, hts⟩ := hall
    cases t with
    | lit cs => exact ih hts _
    | field n =>
      simp only [goodTok, Bool.or_eq_true, decide_eq_true_eq] at ht
      rcases ht with h | h
      · simpa [renderToks, h] using ih hts _
      · by_cases hcd : n = "code_diff".data
        · simpa [renderToks, hcd] using ih hts _
        · simpa [renderToks, hcd, h] using ih hts _

theorem generate_prompt_total (a b : String) : ∃ p, generate_prompt a b = .ok p := by
  cases h : parseTemplateAux .text [] prompt_template.data with
  | error e =>
    exfalso
    have hfalse : templateGood = false := by unfold templateGood; rw [h]
    rw [templateGood_true] at hfalse
    exact absurd hfalse (by simp)
  | ok toks =>
    have hall : toks.all goodTok = true := by
      have heq : templateGood = toks.all goodTok := by unfold templateGood; rw [h]
      rw [← heq]
      exact templateGood_true
    obtain ⟨cs, hcs⟩ := renderToks_ok toks hall a b []
    refine ⟨pyStrip ⟨cs⟩, ?_⟩
    unfold generate_prompt pyFormat
    simp only [h, hcs]
    rfl

theorem string_length_eq_zero (s : String) : s.length = 0 ↔ s = "" := by
  obtain ⟨l⟩ := s
  rw [String.ext_iff]
  exact List.length_eq_zero

/-- Symbolic unfolding of the handler once the body parses and the prompt
builds: the three branches of the backend interaction. -/
theorem generate_text_cases (body cd ui p : String) (b1 b2 : BackendResponse)
    (hsplit : pySplit1 DELIMITER body = some (cd, ui))
    (hp : generate_prompt (pyStrip cd) (pyStrip ui) = .ok p) :
    (∀ e, get_response b1 = .error e → generate_text body b1 b2 = (.error e, [p]))
    ∧ (∀ r, get_response b1 = .ok r → pyStrip r = "" →
        generate_text body b1 b2 = (get_response b2, [p, p]))
    ∧ (∀ r, get_response b1 = .ok r → pyStrip r ≠ "" →
        generate_text body b1 b2 = (.ok (pyStrip r), [p])) := by
  refine ⟨?_, ?_, ?_⟩
  · intro e he
    simp [generate_text, hsplit, hp, he]
  · intro r hr hempty
    simp [generate_text, hsplit, hp, hr, (string_length_eq_zero (pyStrip r)).mpr hempty]
  · intro r hr hne
    have : (pyStrip r).length ≠ 0 := fun h => hne ((string_length_eq_zero _).mp h)
    simp [generate_text, hsplit, hp, hr, this]

/-- The handler rejects before calling the backend when the delimiter does
not occur in the body. -/
theorem generate_text_no_delim (body : String) (b1 b2 : BackendResponse)
    (hsplit : pySplit1 DELIMITER body = none) :
    generate_text body b1 b2 =
      (.error ⟨400, "Invalid input format. Expected \x27diff\x27 and \x27user_instruction\x27 separated by a delimiter."⟩, []) := by
  simp [generate_text, hsplit]

theorem aggregate_resp_cons (s : String) (rest : List StreamLine) (acc : String) :
    aggregate (respChunk s :: rest) acc = aggregate rest (acc ++ s) := rfl

/-! ### Claim C1 -/

/-- C1, as stated, is false on the code: the `done` check (line 110) is
nested inside `if "response" in parsed_response` (line 107), so a line
`{"done": true}` WITHOUT a `response` field does not stop consumption.
Here the first line carries `done = true` and no `response`, yet the second
line is still consumed and contributes `"z"`; under the claim the result
would have been `""` with the second line never consumed. -/
theorem C1_counterexample :
    get_response ⟨200, [.json (.obj [("done", .bool true)]),
                        .json (.obj [("response", .str "z"), ("done", .bool true)])]⟩
      = .ok "z"
    ∧ ("z" : String) ≠ "" := ⟨rfl, by decide⟩

/-- C1 (amended): the aggregator stops consuming further lines as soon as a
line decodes to a JSON object that carries BOTH a string `response` field
and a truthy `done` field; that final fragment is still appended, and the
remaining lines (`rest`) never contribute to the result. -/
theorem C1_amended_stop (fs : List (String × Json)) (rest : List StreamLine)
    (acc s : String)
    (hresp : getKey? fs "response" = some (.str s))
    (hdone : jsonTruthy ((getKey? fs "done").getD (.bool false)) = true) :
    aggregate (.json (.obj fs) :: rest) acc = .ok (acc ++ s) := by
  simp [aggregate, stepLine, hresp, hdone]

/-- Witness for `C1_amended_stop`: a concrete `done` chunk stops the stream
even though one more `response` chunk follows. -/
theorem C1_witness :
    aggregate [.json (.obj [("response", .str "y"), ("done", .bool true)]),
               .json (.obj [("response", .str "z")])] "x" = .ok ("x" ++ "y") :=
  C1_amended_stop _ _ _ _ rfl rfl

/-! ### Claim C7 -/

/-- C7: a line that fails to decode as JSON is skipped — aggregation over
the remaining lines is unchanged, for every stream and accumulator — and in
particular the stream `["not json", {response: "ok", done: true}]`
aggregates to `"ok"` with no error reaching the request boundary. -/
theorem C7_malformed_line_skipped :
    (∀ (rest : List StreamLine) (acc : String),
        aggregate (.malformed :: rest) acc = aggregate rest acc)
    ∧ get_response ⟨200, [.malformed, respDone "ok"]⟩ = .ok "ok"
    ∧ (generate_text ("a" ++ DELIMITER ++ "b")
        ⟨200, [.malformed, respDone "ok"]⟩ ⟨200, []⟩).1 = .ok "ok" := by
  refine ⟨fun _ _ => rfl, rfl, ?_⟩
  obtain ⟨p, hp⟩ := generate_prompt_total (pyStrip "a") (pyStrip "b")
  have hc := (generate_text_cases ("a" ++ DELIMITER ++ "b") "a" "b" p
      ⟨200, [.malformed, respDone "ok"]⟩ ⟨200, []⟩ (by rfl) hp).2.2 "ok" (by rfl) (by decide)
  rw [hc]
  rfl

/-! ### Claim C8 -/

/-- C8: the aggregated result is the concatenation, in arrival order, of
the `response` fields (first conjunct, for any fragment list), and
aggregation is invariant under splitting a fragment across two consecutive
chunks when no `done` boundary separates them (second conjunct). -/
theorem C8_concat_and_split_invariance :
    (∀ (ss : List String) (acc : String),
        aggregate (ss.map respChunk) acc = .ok (acc ++ joinAll ss))
    ∧ (∀ (a b : String) (rest : List StreamLine) (acc : String),
        aggregate (respChunk (a ++ b) :: rest) acc
          = aggregate (respChunk a :: respChunk b :: rest) acc) := by
  constructor
  · intro ss
    induction ss with
    | nil => intro acc; simp [joinAll, aggregate, String.append_empty]
    | cons s ss ih =>
      intro acc
      rw [List.map_cons, aggregate_resp_cons, ih]
      simp [joinAll, String.append_assoc]
  · intro a b rest acc
    rw [aggregate_resp_cons, aggregate_resp_cons, aggregate_resp_cons,
      String.append_assoc]

/-! ### Claim C10 -/

/-- C10: a decoded line whose `response` field is present but not a string
is NOT skipped: `combined_response += response_text` raises `TypeError`,
which escapes the loop, is caught by the catch-all of `get_response`, and
the whole request fails with the 500 error — while (second conjunct) the
same stream position holding an undecodable line is skipped and the request
succeeds. -/
theorem C10_nonstring_response_fails (v : Json) (hv : ∀ s, v ≠ .str s) :
    (generate_text ("a" ++ DELIMITER ++ "b")
        ⟨200, [.json (.obj [("response", v)]), respDone "ok"]⟩ ⟨200, []⟩).1
      = .error ⟨500, "Error fetching response"⟩
    ∧ (generate_text ("a" ++ DELIMITER ++ "b")
        ⟨200, [.malformed, respDone "ok"]⟩ ⟨200, []⟩).1 = .ok "ok" := by
  have hstep : stepLine (.obj [("response", v)]) "" = .error .typeError := by
    cases v with
    | str s => exact absurd rfl (hv s)
    | null => rfl
    | bool b => rfl
    | num n => rfl
    | arr xs => rfl
    | obj fs => rfl
  have hb1 : get_response ⟨200, [.json (.obj [("response", v)]), respDone "ok"]⟩
      = .error ⟨500, "Error fetching response"⟩ := by
    simp [get_response, aggregate, hstep]
  obtain ⟨p, hp⟩ := generate_prompt_total (pyStrip "a") (pyStrip "b")
  constructor
  · have hc := (generate_text_cases ("a" ++ DELIMITER ++ "b") "a" "b" p
        ⟨200, [.json (.obj [("response", v)]), respDone "ok"]⟩ ⟨200, []⟩ (by rfl) hp).1 _ hb1
    rw [hc]
  · have hc := (generate_text_cases ("a" ++ DELIMITER ++ "b") "a" "b" p
        ⟨200, [.malformed, respDone "ok"]⟩ ⟨200, []⟩ (by rfl) hp).2.2 "ok" (by rfl) (by decide)
    rw [hc]
    rfl

/-- Witness for `C10_nonstring_response_fails` at `response = null`. -/
theorem C10_witness :
    (generate_text ("a" ++ DELIMITER ++ "b")
        ⟨200, [.json (.obj [("response", Json.null)]), respDone "ok"]⟩ ⟨200, []⟩).1
      = .error ⟨500, "Error fetching response"⟩ :=
  (C10_nonstring_response_fails .null (by intro s h; exact Json.noConfusion h)).1

/-- The prompt actually built for a pair of (already stripped) inputs; the
error branch is unreachable (`generate_prompt_total`). -/
def promptFor (cd ui : String) : String :=
  match generate_prompt cd ui with
  | .ok p => p
  | .error _ => ""

theorem generate_prompt_eq_promptFor (a b : String) :
    generate_prompt a b = .ok (promptFor a b) := by
  obtain ⟨p, hp⟩ := generate_prompt_total a b
  unfold promptFor
  rw [hp]

/-! ### Claim C4 -/

/-- C4: the prompt builder accepts every pair of strings — empty, or
containing braces and any other template-special characters (substituted
values are inserted verbatim, never re-scanned) — and always returns a
string; no error condition is reachable. -/
theorem C4_prompt_builder_total (a b : String) : ∃ p, generate_prompt a b = .ok p :=
  generate_prompt_total a b

/-! ### Claim C2 -/

/-- C2, as stated, is false on the code: on the empty-result retry path the
second backend call's output is returned WITHOUT trimming (line 152 has no
`.strip()`).  First call aggregates to `""`, retry returns `" x "`, and the
handler answers `" x "`, not its trimmed form `"x"`. -/
theorem C2_counterexample :
    (generate_text ("a" ++ DELIMITER ++ "b") ⟨200, []⟩ ⟨200, [respDone " x "]⟩).1
      = .ok " x "
    ∧ pyStrip " x " = "x" ∧ (" x " : String) ≠ "x" := by
  refine ⟨?_, by decide, by decide⟩
  obtain ⟨p, hp⟩ := generate_prompt_total (pyStrip "a") (pyStrip "b")
  have hc := (generate_text_cases ("a" ++ DELIMITER ++ "b") "a" "b" p
      ⟨200, []⟩ ⟨200, [respDone " x "]⟩ (by rfl) hp).2.1 "" (by rfl) (by rfl)
  rw [hc]
  rfl

/-- C2 (amended): on the no-retry path the returned result is the
aggregated backend text trimmed; on the retry path the second call's
aggregated text is returned UNtrimmed. -/
theorem C2_amended_trim (body cd ui : String) (b1 b2 : BackendResponse) (r1 : String)
    (hsplit : pySplit1 DELIMITER body = some (cd, ui))
    (h1 : get_response b1 = .ok r1) :
    (pyStrip r1 ≠ "" → (generate_text body b1 b2).1 = .ok (pyStrip r1))
    ∧ (∀ r2, pyStrip r1 = "" → get_response b2 = .ok r2 →
        (generate_text body b1 b2).1 = .ok r2) := by
  obtain ⟨p, hp⟩ := generate_prompt_total (pyStrip cd) (pyStrip ui)
  have hc := generate_text_cases body cd ui p b1 b2 hsplit hp
  constructor
  · intro hne
    rw [hc.2.2 r1 h1 hne]
  · intro r2 hempty h2
    rw [hc.2.1 r1 h1 hempty, h2]

/-- Witness for `C2_amended_trim`: the no-retry path returns the trimmed
aggregate. -/
theorem C2_witness :
    (generate_text ("a" ++ DELIMITER ++ "b") ⟨200, [respDone "ok"]⟩ ⟨200, []⟩).1
      = .ok (pyStrip "ok") :=
  (C2_amended_trim ("a" ++ DELIMITER ++ "b") "a" "b" ⟨200, [respDone "ok"]⟩ ⟨200, []⟩
    "ok" (by rfl) (by rfl)).1 (by decide)

/-! ### Claim C3 -/

/-- C3, as stated, is false on the code: the backend's status code is NOT
surfaced.  `HTTPException(503, ...)` raised at line 97 is caught by the
catch-all `except Exception` of `get_response` (line 119) and replaced by
the fixed `HTTPException(500, "Error fetching response")`: a 503 backend
answer reaches the client as 500, not 503. -/
theorem C3_counterexample :
    (generate_text ("a" ++ DELIMITER ++ "b") ⟨503, []⟩ ⟨200, []⟩).1
      = .error ⟨500, "Error fetching response"⟩
    ∧ (500 : Nat) ≠ 503 := by
  refine ⟨?_, by decide⟩
  obtain ⟨p, hp⟩ := generate_prompt_total (pyStrip "a") (pyStrip "b")
  have hc := (generate_text_cases ("a" ++ DELIMITER ++ "b") "a" "b" p
      ⟨503, []⟩ ⟨200, []⟩ (by rfl) hp).1 ⟨500, "Error fetching response"⟩ (by rfl)
  rw [hc]

/-- C3 (amended): a non-success backend status makes the handler surface
the FIXED error `HTTPException(500, "Error fetching response")` — the
backend's own status code is swallowed — and exactly one backend call is
made (no retry). -/
theorem C3_amended_fixed_500 (body cd ui : String) (sc : Nat)
    (lines : List StreamLine) (b2 : BackendResponse)
    (hsplit : pySplit1 DELIMITER body = some (cd, ui)) (hsc : sc ≠ 200) :
    (generate_text body ⟨sc, lines⟩ b2).1 = .error ⟨500, "Error fetching response"⟩
    ∧ (generate_text body ⟨sc, lines⟩ b2).2.length = 1 := by
  obtain ⟨p, hp⟩ := generate_prompt_total (pyStrip cd) (pyStrip ui)
  have hg : get_response ⟨sc, lines⟩ = .error ⟨500, "Error fetching response"⟩ := by
    simp [get_response, hsc]
  have hc := (generate_text_cases body cd ui p ⟨sc, lines⟩ b2 hsplit hp).1 _ hg
  rw [hc]
  exact ⟨rfl, rfl⟩

/-- Witness for `C3_amended_fixed_500` at backend status 503. -/
theorem C3_witness :
    (generate_text ("a" ++ DELIMITER ++ "b") ⟨503, [.blank]⟩ ⟨200, []⟩).1
      = .error ⟨500, "Error fetching response"⟩ :=
  (C3_amended_fixed_500 ("a" ++ DELIMITER ++ "b") "a" "b" 503 [.blank] ⟨200, []⟩
    (by rfl) (by decide)).1

/-! ### Claim C5 -/

theorem splitFirstAux_isSome_iff_countOcc (d : List Char) (l : List Char) :
    (splitFirstAux d l).isSome ↔ 1 ≤ countOccAux d 0 l := by
  induction l with
  | nil => simp [splitFirstAux, countOccAux]
  | cons c cs ih =>
    by_cases hpre : d.isPrefixOf (c :: cs)
    · simp [splitFirstAux, countOccAux, hpre]
    · rcases hs : splitFirstAux d cs with _ | pr <;>
        simpa [splitFirstAux, countOccAux, hpre, hs] using ih

/-- C5, as stated, is false on the code: `raw_text.split(DELIMITER, 1)`
yields two parts whenever the sentinel occurs AT LEAST once, so a body in
which the sentinel appears twice is accepted (split at the first
occurrence, the second occurrence left inside `user_instruction`), not
rejected with a 400. -/
theorem C5_counterexample :
    countOcc DELIMITER ("a" ++ DELIMITER ++ "b" ++ DELIMITER ++ "c") = 2
    ∧ (generate_text ("a" ++ DELIMITER ++ "b" ++ DELIMITER ++ "c")
        ⟨200, [respDone "m"]⟩ ⟨200, []⟩).1 = .ok "m" := by
  refine ⟨by rfl, ?_⟩
  obtain ⟨p, hp⟩ :=
    generate_prompt_total (pyStrip "a") (pyStrip ("b" ++ DELIMITER ++ "c"))
  have hc := (generate_text_cases ("a" ++ DELIMITER ++ "b" ++ DELIMITER ++ "c")
      "a" ("b" ++ DELIMITER ++ "c") p ⟨200, [respDone "m"]⟩ ⟨200, []⟩
      (by rfl) hp).2.2 "m" (by rfl) (by decide)
  rw [hc]
  rfl

/-- C5 (amended): a raw-text body is accepted (split into two parts) iff
the sentinel appears AT LEAST once; only a body with no occurrence is
rejected with the 400 error, before any backend call. -/
theorem C5_amended_at_least_once (body : String) (b1 b2 : BackendResponse) :
    ((pySplit1 DELIMITER body).isSome ↔ 1 ≤ countOcc DELIMITER body)
    ∧ (countOcc DELIMITER body = 0 →
        generate_text body b1 b2 =
          (.error ⟨400, "Invalid input format. Expected \x27diff\x27 and \x27user_instruction\x27 separated by a delimiter."⟩, [])) := by
  have hiff := splitFirstAux_isSome_iff_countOcc DELIMITER.data body.data
  constructor
  · unfold countOcc
    rw [← hiff]
    cases hs : splitFirstAux DELIMITER.data body.data with
    | none => simp [pySplit1, hs]
    | some pr => simp [pySplit1, hs]
  · intro h0
    apply generate_text_no_delim
    cases hs : splitFirstAux DELIMITER.data body.data with
    | none => simp [pySplit1, hs]
    | some pr =>
      exfalso
      have h1 := hiff.mp (by simp [hs])
      rw [countOcc] at h0
      omega

/-- Witness for `C5_amended_at_least_once`: a body without the sentinel is
rejected with the 400 error and no backend call. -/
theorem C5_witness :
    generate_text "abc" ⟨200, []⟩ ⟨200, []⟩ =
      (.error ⟨400, "Invalid input format. Expected \x27diff\x27 and \x27user_instruction\x27 separated by a delimiter."⟩, []) :=
  (C5_amended_at_least_once "abc" ⟨200, []⟩ ⟨200, []⟩).2 (by rfl)

/-! ### Claim C6 -/

/-- C6: if the first call's trimmed result is empty, exactly one additional
backend call is made with the SAME prompt (`[p, p]`) and the second call's
outcome is returned as-is, whatever it is — ok or error, empty or not — so
no further retry can occur; if the first trimmed result is non-empty, only
one call is made. -/
theorem C6_single_empty_retry (body cd ui p r1 : String) (b1 b2 : BackendResponse)
    (hsplit : pySplit1 DELIMITER body = some (cd, ui))
    (hp : generate_prompt (pyStrip cd) (pyStrip ui) = .ok p)
    (h1 : get_response b1 = .ok r1) :
    (pyStrip r1 = "" → generate_text body b1 b2 = (get_response b2, [p, p]))
    ∧ (pyStrip r1 ≠ "" → generate_text body b1 b2 = (.ok (pyStrip r1), [p])) := by
  have hc := generate_text_cases body cd ui p b1 b2 hsplit hp
  exact ⟨fun he => hc.2.1 r1 h1 he, fun hne => hc.2.2 r1 h1 hne⟩

/-- Witness for `C6_single_empty_retry`: empty first aggregate, two calls,
second call's output returned. -/
theorem C6_witness :
    (generate_text ("a" ++ DELIMITER ++ "b") ⟨200, []⟩ ⟨200, [respDone "m"]⟩).1
      = .ok "m"
    ∧ (generate_text ("a" ++ DELIMITER ++ "b") ⟨200, []⟩ ⟨200, [respDone "m"]⟩).2.length
      = 2 := by
  obtain ⟨p, hp⟩ := generate_prompt_total (pyStrip "a") (pyStrip "b")
  have h := (C6_single_empty_retry ("a" ++ DELIMITER ++ "b") "a" "b" p ""
      ⟨200, []⟩ ⟨200, [respDone "m"]⟩ (by rfl) hp (by rfl)).1 (by rfl)
  rw [h]
  exact ⟨rfl, rfl⟩

/-! ### Claim C9 -/

theorem dropWhile_append_of_all (p : Char → Bool) (u v : List Char)
    (hu : ∀ c ∈ u, p c = true) :
    (u ++ v).dropWhile p = v.dropWhile p := by
  induction u with
  | nil => rfl
  | cons c u ih =>
    have hc : p c = true := hu c (by simp)
    simp only [List.cons_append, List.dropWhile_cons, hc, if_true]
    exact ih (fun c' hc' => hu c' (by simp [hc']))

theorem dropWhile_append_of_ne_nil (p : Char → Bool) (u v : List Char)
    (hu : u.dropWhile p ≠ []) :
    (u ++ v).dropWhile p = u.dropWhile p ++ v := by
  induction u with
  | nil => simp [List.dropWhile] at hu
  | cons c u ih =>
    by_cases hc : p c = true
    · simp only [List.dropWhile_cons, hc, if_true] at hu
      simp only [List.cons_append, List.dropWhile_cons, hc, if_true]
      exact ih hu
    · simp [List.cons_append, List.dropWhile_cons, hc]

theorem stripChars_append_ws (l w : List Char) (hw : ∀ c ∈ w, isPySpace c = true) :
    stripChars (l ++ w) = stripChars l := by
  unfold stripChars
  by_cases hnil : l.dropWhile isPySpace = []
  · have hl : ∀ c ∈ l, isPySpace c = true := by
      simpa using List.dropWhile_eq_nil_iff.mp hnil
    have hlw : (l ++ w).dropWhile isPySpace = [] := by
      rw [dropWhile_append_of_all _ _ _ hl]
      exact List.dropWhile_eq_nil_iff.mpr (by simpa using hw)
    rw [hlw, hnil]
  · rw [dropWhile_append_of_ne_nil _ _ _ hnil, List.reverse_append,
      dropWhile_append_of_all _ _ _ (fun c hc => hw c (List.mem_reverse.mp hc))]

theorem stripChars_ws_append (w l : List Char) (hw : ∀ c ∈ w, isPySpace c = true) :
    stripChars (w ++ l) = stripChars l := by
  unfold stripChars
  rw [dropWhile_append_of_all _ _ _ hw]

theorem pyStrip_append_ws (s ws : String) (hws : ∀ c ∈ ws.data, isPySpace c = true) :
    pyStrip (s ++ ws) = pyStrip s := by
  show (⟨stripChars (s ++ ws).data⟩ : String) = ⟨stripChars s.data⟩
  rw [String.data_append, stripChars_append_ws _ _ hws]

theorem pyStrip_ws_append (ws s : String) (hws : ∀ c ∈ ws.data, isPySpace c = true) :
    pyStrip (ws ++ s) = pyStrip s := by
  show (⟨stripChars (ws ++ s).data⟩ : String) = ⟨stripChars s.data⟩
  rw [String.data_append, stripChars_ws_append _ _ hws]

/-- C9: the handler strips both parsed parts before building the prompt —
every prompt sent to the backend is the one built from `pyStrip cd` and
`pyStrip ui` (first conjunct: the call list is `[p]` or `[p, p]` for that
single prompt `p`), and stripping makes the prompt slots insensitive to
whitespace adjacent to the sentinel: trailing whitespace on the diff side
and leading whitespace on the instruction side never change the slots
(second conjunct). -/
theorem C9_parts_stripped (body cd ui p : String) (b1 b2 : BackendResponse)
    (hsplit : pySplit1 DELIMITER body = some (cd, ui))
    (hp : generate_prompt (pyStrip cd) (pyStrip ui) = .ok p) :
    ((generate_text body b1 b2).2 = [p] ∨ (generate_text body b1 b2).2 = [p, p])
    ∧ (∀ ws : String, (∀ c ∈ ws.data, isPySpace c = true) →
        pyStrip (cd ++ ws) = pyStrip cd ∧ pyStrip (ws ++ ui) = pyStrip ui) := by
  have hc := generate_text_cases body cd ui p b1 b2 hsplit hp
  constructor
  · cases hg : get_response b1 with
    | error e => exact .inl (by rw [hc.1 e hg])
    | ok r =>
      by_cases hr : pyStrip r = ""
      · exact .inr (by rw [hc.2.1 r hg hr])
      · exact .inl (by rw [hc.2.2 r hg hr])
  · intro ws hws
    exact ⟨pyStrip_append_ws cd ws hws, pyStrip_ws_append ws ui hws⟩

/-- Witness for `C9_parts_stripped`: concrete body with whitespace around
the sentinel; the single call uses the prompt built from the stripped
parts, and a whitespace suffix/prefix does not change them. -/
theorem C9_witness :
    ((generate_text ("a " ++ DELIMITER ++ " b") ⟨200, [respDone "m"]⟩ ⟨200, []⟩).2
        = [promptFor (pyStrip "a ") (pyStrip " b")]
      ∨ (generate_text ("a " ++ DELIMITER ++ " b") ⟨200, [respDone "m"]⟩ ⟨200, []⟩).2
        = [promptFor (pyStrip "a ") (pyStrip " b"), promptFor (pyStrip "a ") (pyStrip " b")])
    ∧ (pyStrip ("a " ++ " ") = pyStrip "a " ∧ pyStrip (" " ++ " b") = pyStrip " b") := by
  have h := C9_parts_stripped ("a " ++ DELIMITER ++ " b") "a " " b"
      (promptFor (pyStrip "a ") (pyStrip " b")) ⟨200, [respDone "m"]⟩ ⟨200, []⟩
      (by rfl) (generate_prompt_eq_promptFor _ _)
  exact ⟨h.1, h.2 " " (by decide)⟩
